import Mathlib

/-!
Shallow embedding of the symptom-matching and disease-scoring engine of the
`helthcare` repository (files `ai_model/pretrained_medical_ai.py` and
`test_ai_inference.py`), together with theorems settling the frozen claims.

Modelling conventions:
* Python floats are modelled as exact rationals (`Rat`); all arithmetic the
  engine performs on scores is elementary (+, *, /, min, max), so no rounding
  behaviour is load-bearing for the claims.
* Python dicts that are iterated in insertion order are modelled as
  association lists (`List (String × _)`).
* The external pretrained models (text encoder, cosine similarity, NER
  pipeline) are modelled as components of an `Env` parameter; the
  `np.random.randn` fallback of `encode_clinical_text` is modelled as a
  separate `randEmbed` component of `Env`, so that two calls of the engine
  can draw different random vectors while sharing the same fixed models.
* A Python expression that raises for some inputs is embedded as an
  `Option`-valued function returning `none` exactly where it raises.
-/

namespace MedAI

/-- Literal transcription of Python `needle in hay` prefix step over char lists. -/
def leadsWith : List Char → List Char → Bool
  | [], _ => true
  | _ :: _, [] => false
  | a :: as, b :: bs => a == b && leadsWith as bs

/-- Python substring containment `needle in hay` over char lists: some suffix of
`hay` starts with `needle` (the empty needle is contained in everything, as in
Python). -/
def occursIn (needle : List Char) : List Char → Bool
  | [] => leadsWith needle []
  | c :: t => leadsWith needle (c :: t) || occursIn needle t

/-- Python `needle in hay` for strings (substring containment). -/
def substrB (needle hay : String) : Bool :=
  occursIn needle.toList hay.toList

/-- Python `s.lower()` (the engine only lower-cases ASCII symptom names, where
`Char.toLower` agrees with Python). -/
def strLower (s : String) : String :=
  String.mk (s.toList.map Char.toLower)

/-- Python `s.replace(c, d)` for a single-character pattern, which is a
character map. -/
def replaceChar (c d : Char) (s : String) : String :=
  String.mk (s.toList.map (fun a => if a == c then d else a))

/-- The normalization used by `symptom_matches_test` (test_ai_inference.py
lines 181-182): `s.lower().replace("_", " ").replace("-", " ")`. -/
def cleanTest (s : String) : String :=
  replaceChar '-' ' ' (replaceChar '_' ' ' (strLower s))

/-- The synonym table local to `symptom_matches_test`
(test_ai_inference.py lines 193-199), keyed by the raw catalog-side symptom. -/
def synonyms : List (String × List String) :=
  [("involuntary_movements", ["chorea", "dyskinesia", "abnormal movements"]),
   ("muscle_weakness", ["weakness", "fatigue", "tired muscles"]),
   ("difficulty_swallowing", ["dysphagia", "swallowing problems"]),
   ("double_vision", ["diplopia", "seeing double"]),
   ("chronic_cough", ["persistent cough", "ongoing cough", "cough"])]

/-- The substring clause of `symptom_matches_test` (lines 188-190): either
cleaned side contained in the other. -/
def substrClause (patient_symptom disease_symptom : String) : Bool :=
  let patient_clean := cleanTest patient_symptom
  let disease_clean := cleanTest disease_symptom
  substrB patient_clean disease_clean || substrB disease_clean patient_clean

/-- `symptom_matches_test` (test_ai_inference.py lines 178-206): exact match on
cleaned strings, then two-way substring, then synonym lookup keyed by the RAW
`disease_symptom` with each synonym checked as a substring of the cleaned
patient symptom. -/
def symptom_matches_test (patient_symptom disease_symptom : String) : Bool :=
  let patient_clean := cleanTest patient_symptom
  let disease_clean := cleanTest disease_symptom
  if patient_clean == disease_clean then true
  else if substrB patient_clean disease_clean || substrB disease_clean patient_clean then true
  else match synonyms.lookup disease_symptom with
    | some syns => syns.any (fun synonym => substrB (strLower synonym) patient_clean)
    | none => false

/-- One entry of the `disease_knowledge` dict local to
`calculate_test_disease_probability` (test_ai_inference.py lines 114-140). -/
structure DiseaseInfo where
  key_symptoms : List String
  secondary_symptoms : List String
  genetic_pattern : String
deriving DecidableEq, Repr

/-- The `disease_knowledge` dict (test_ai_inference.py lines 114-140),
in insertion order. -/
def disease_knowledge : List (String × DiseaseInfo) :=
  [("Huntington Disease",
    ⟨["involuntary_movements", "chorea", "cognitive_decline", "behavioral_changes", "depression"],
     ["speech_problems", "balance_problems", "anxiety"],
     "autosomal_dominant"⟩),
   ("Cystic Fibrosis",
    ⟨["chronic_cough", "thick_mucus", "recurrent_lung_infections", "poor_weight_gain", "salty_skin"],
     ["digestive_problems", "infertility", "clubbing_of_fingers"],
     "autosomal_recessive"⟩),
   ("Myasthenia Gravis",
    ⟨["muscle_weakness", "double_vision", "drooping_eyelids", "difficulty_swallowing", "slurred_speech"],
     ["fatigue", "breathing_difficulties", "weakness_in_arms"],
     "autoimmune"⟩),
   ("Amyotrophic Lateral Sclerosis",
    ⟨["muscle_weakness", "muscle_atrophy", "fasciculations", "speech_problems", "difficulty_swallowing"],
     ["breathing_problems", "cramping", "stiffness"],
     "mostly_sporadic"⟩),
   ("Wilson Disease",
    ⟨["liver_problems", "neurological_symptoms", "psychiatric_symptoms", "tremor", "dystonia"],
     ["kayser_fleischer_rings", "hepatitis", "cirrhosis"],
     "autosomal_recessive"⟩)]

/-- The key/secondary symptom loops of `calculate_test_disease_probability`
(lines 150-164): each catalog symptom adds weight `w` to `total_possible` and,
if ANY patient symptom matches it, also to `score` (the Python inner loop with
`break` at the first matching patient symptom is `List.any`). The accumulator
is the `(score, total_possible)` pair. -/
def symptomFold (symptoms : List String) (w : Rat) (disease_syms : List String)
    (st : Rat × Rat) : Rat × Rat :=
  disease_syms.foldl (fun acc ds =>
    ((if symptoms.any (fun p => symptom_matches_test p ds) then acc.1 + w else acc.1),
     acc.2 + w)) st

/-- The medical-history loop of `calculate_test_disease_probability`
(lines 167-170): an item adds 2.0 to both `score` and `total_possible` iff it
contains the substring `"family_history"` after lower-casing AND the disease's
genetic pattern is not `"sporadic"`. -/
def historyFold (medical_history : List String) (genetic_pattern : String)
    (st : Rat × Rat) : Rat × Rat :=
  medical_history.foldl (fun acc h =>
    if substrB "family_history" (strLower h) && !(genetic_pattern == "sporadic")
    then (acc.1 + 2, acc.2 + 2) else acc) st

/-- Final normalization of `calculate_test_disease_probability` (lines 172-176):
`min(score / total_possible, 0.95)` when `total_possible > 0.0`, else `0.0`. -/
def finalScore (score total_possible : Rat) : Rat :=
  if 0 < total_possible then min (score / total_possible) (95 / 100) else 0

/-- The `(score, total_possible)` pair accumulated by the three loops of
`calculate_test_disease_probability`, in source order: key symptoms (weight 3),
secondary symptoms (weight 1), medical history. -/
def scorePair (symptoms medical_history : List String) (info : DiseaseInfo) : Rat × Rat :=
  historyFold medical_history info.genetic_pattern
    (symptomFold symptoms 1 info.secondary_symptoms
      (symptomFold symptoms 3 info.key_symptoms (0, 0)))

/-- `calculate_test_disease_probability` (test_ai_inference.py lines 107-176):
returns 0.0 for a disease absent from `disease_knowledge`, otherwise the
normalized, 0.95-capped weighted match score. -/
def calculate_test_disease_probability (symptoms medical_history : List String)
    (target_disease : String) : Rat :=
  match disease_knowledge.lookup target_disease with
  | none => 0
  | some info =>
    let st := scorePair symptoms medical_history info
    finalScore st.1 st.2

/-- An extracted medical entity (the dicts appended by
`extract_medical_entities`, pretrained_medical_ai.py lines 131-135). -/
structure Entity where
  entity : String
  word : String
  score : Rat
deriving DecidableEq, Repr

/-- The `disease_symptoms` knowledge base of `MedicalAIInference`
(pretrained_medical_ai.py lines 58-69), in insertion order. -/
def disease_symptoms : List (String × List String) :=
  [("Huntington Disease",
    ["chorea", "involuntary movements", "cognitive decline", "behavioral changes", "depression", "difficulty swallowing"]),
   ("Cystic Fibrosis",
    ["chronic cough", "thick mucus", "recurrent lung infections", "poor weight gain", "salty skin", "digestive problems"]),
   ("Myasthenia Gravis",
    ["muscle weakness", "double vision", "drooping eyelids", "difficulty swallowing", "slurred speech", "fatigue"]),
   ("Amyotrophic Lateral Sclerosis",
    ["muscle weakness", "muscle atrophy", "fasciculations", "speech problems", "difficulty swallowing"]),
   ("Duchenne Muscular Dystrophy",
    ["muscle weakness", "muscle atrophy", "contractures", "scoliosis", "cardiomyopathy"]),
   ("Wilson Disease",
    ["liver problems", "neurological symptoms", "psychiatric symptoms", "tremor", "dystonia"]),
   ("Fabry Disease",
    ["pain", "burning sensation", "rash", "kidney problems", "heart problems", "hearing loss"]),
   ("Gaucher Disease",
    ["fatigue", "bone pain", "enlarged liver", "enlarged spleen", "bleeding", "bruising"]),
   ("Pompe Disease",
    ["muscle weakness", "breathing problems", "heart problems", "feeding difficulties"]),
   ("Tay-Sachs Disease",
    ["developmental delay", "seizures", "vision loss", "hearing loss", "muscle weakness"])]

/-- The external pretrained components `MedicalAIInference` calls, plus the
random source of the encoder's fallback.
* `embedModel t = some v`: the ClinicalBERT encoder returns embedding `v` for
  text `t`; `none`: the model call raises, and `encode_clinical_text` falls
  back to `np.random.randn(768)` (lines 166-169), whose draw for that call is
  modelled by `randEmbed`.
* `simOf` is the numpy cosine-similarity computation on two embeddings
  (lines 185-187); it is a fixed numeric function of the two vectors.
* `ner = some f`: the NER pipeline computes `f` (a raising pipeline is the
  constant `[]` of the `except` branch); `ner = none`: the keyword fallback of
  `extract_medical_entities` is used.
Two successive calls of the engine share `embedModel`, `simOf` and `ner`
(the loaded models) but may see different `randEmbed` draws. -/
structure Env where
  embedModel : String → Option (List Rat)
  randEmbed : String → List Rat
  simOf : List Rat → List Rat → Rat
  ner : Option (String → List Entity)

/-- `encode_clinical_text` (pretrained_medical_ai.py lines 146-169): the model
embedding on success, the random fallback vector when the model call raises. -/
def encode_clinical_text (env : Env) (text : String) : List Rat :=
  match env.embedModel text with
  | some v => v
  | none => env.randEmbed text

/-- The disease description synthesized by `calculate_disease_similarity`
(line 181). -/
def diseaseText (disease : String) (known_symptoms : List String) : String :=
  "Patient with " ++ disease ++ " typically presents with " ++
    String.intercalate ", " known_symptoms

/-- The symptom-match counter of `calculate_disease_similarity`
(lines 190-196): for EACH patient symptom it scans ALL known symptoms and adds
1 per matching (patient, known) pair — there is no `break`, so one patient
symptom can count several times and duplicated patient symptoms each count. -/
def countMatchPairs (patient_symptoms known_symptoms : List String) : Nat :=
  (patient_symptoms.map (fun symptom =>
    (known_symptoms.filter (fun known_symptom =>
      let symptom_clean := replaceChar '_' ' ' (strLower symptom)
      let known_clean := replaceChar '_' ' ' (strLower known_symptom)
      substrB symptom_clean known_clean || substrB known_clean symptom_clean)).length)).sum

/-- `calculate_disease_similarity` (pretrained_medical_ai.py lines 171-206):
per catalog disease, `0.7 * cosine + 0.3 * normalized symptom match count`,
clamped into `[0, 1]` by `max(0, min(1, _))`. The result keeps the catalog's
insertion order, as a Python dict does. -/
def calculate_disease_similarity (env : Env) (catalog : List (String × List String))
    (patient_symptoms : List String) (patient_text : String) : List (String × Rat) :=
  let patient_embedding := encode_clinical_text env patient_text
  catalog.map (fun dk =>
    let disease_embedding := encode_clinical_text env (diseaseText dk.1 dk.2)
    let similarity := env.simOf patient_embedding disease_embedding
    let symptom_match_score : Rat := (countMatchPairs patient_symptoms dk.2 : Nat)
    let symptom_match_score :=
      if 0 < dk.2.length then symptom_match_score / (dk.2.length : Rat) else symptom_match_score
    let combined_score := 7 / 10 * similarity + 3 / 10 * symptom_match_score
    (dk.1, max 0 (min 1 combined_score)))

/-- `extract_medical_entities` (pretrained_medical_ai.py lines 119-144): with
no NER pipeline, keyword-scan the catalog's symptoms against the lowered text;
with a pipeline, its output (a raising pipeline is modelled as one returning
the `[]` of the `except` branch). -/
def extract_medical_entities (env : Env) (catalog : List (String × List String))
    (text : String) : List Entity :=
  match env.ner with
  | none =>
    let text_lower := strLower text
    catalog.flatMap (fun dk =>
      (dk.2.filter (fun symptom => substrB (replaceChar '_' ' ' symptom) text_lower)).map
        (fun symptom => ⟨"SYMPTOM", symptom, 9 / 10⟩))
  | some f => f text

/-- The patient record read by `diagnose_rare_disease` via `patient_data.get`
(lines 224-228), with the source's defaults for absent fields already
applied. -/
structure PatientData where
  symptoms : List String
  clinical_notes : String
  age : Int
  gender : String
  lab_values : List (String × Rat)
deriving DecidableEq, Repr

/-- The patient narrative synthesized by `diagnose_rare_disease`
(lines 230-239). Numbers are rendered by `toString`; the narrative is only
ever consumed by the `Env` components, so its exact float formatting is not
load-bearing. -/
def mkPatientText (p : PatientData) : String :=
  let patient_text := "Patient is a " ++ toString p.age ++ "-year-old " ++ p.gender ++
    " presenting with " ++ String.intercalate ", " p.symptoms ++ ". "
  let patient_text :=
    if p.clinical_notes = "" then patient_text
    else patient_text ++ "Clinical notes: " ++ p.clinical_notes ++ ". "
  if p.lab_values = [] then patient_text
  else patient_text ++ "Laboratory findings: " ++
    String.intercalate ", " (p.lab_values.map (fun kv => kv.1 ++ ": " ++ toString kv.2))

/-- Python's `lab_values.get(key, 0)` over the lab dict. -/
def getLab (labs : List (String × Rat)) (k : String) : Rat :=
  (labs.lookup k).getD 0

/-- The lab-based additions of `generate_recommendations` (lines 346-352):
guarded by the dict's truthiness (`if lab_values:`), with each absent key
defaulting to 0 via `lab_values.get(key, 0)`, so a missing key never
triggers. -/
def labRecs (lab_values : List (String × Rat)) : List String :=
  if lab_values = [] then []
  else
    (if getLab lab_values "alt" > 56 || getLab lab_values "ast" > 40
     then ["Hepatology consultation for elevated liver enzymes"] else []) ++
    (if getLab lab_values "creatinine" > 6 / 5
     then ["Nephrology evaluation for kidney function"] else [])

/-- `generate_recommendations` (pretrained_medical_ai.py lines 284-354):
disease-specific base list chosen by substring tests on the primary diagnosis,
symptom-triggered additions by list MEMBERSHIP (`"muscle weakness" in symptoms`
on a Python list), lab-triggered additions guarded by the dict's truthiness,
then `list(set(recommendations))` — modelled as `List.dedup`, which keeps
membership and collapses duplicates (Python's set order is not a contract). -/
def generate_recommendations (primary_diagnosis : String) (symptoms : List String)
    (lab_values : List (String × Rat)) : List String :=
  let recommendations : List String :=
    if substrB "Huntington" primary_diagnosis then
      ["Genetic counseling recommended",
       "Neurological evaluation with movement disorder specialist",
       "MRI brain imaging to assess striatal atrophy",
       "Psychiatric evaluation for mood and behavioral symptoms",
       "Physical therapy and occupational therapy assessment"]
    else if substrB "Cystic Fibrosis" primary_diagnosis then
      ["Sweat chloride test for confirmation",
       "Genetic testing for CFTR mutations",
       "Pulmonary function tests",
       "Chest CT scan",
       "Nutritional assessment and pancreatic enzyme supplementation"]
    else if substrB "Myasthenia Gravis" primary_diagnosis then
      ["Acetylcholine receptor antibody testing",
       "Edrophonium (Tensilon) test",
       "Electromyography (EMG) with repetitive nerve stimulation",
       "CT chest to evaluate for thymoma",
       "Consider pyridostigmine trial"]
    else if substrB "ALS" primary_diagnosis || substrB "Amyotrophic" primary_diagnosis then
      ["Electromyography (EMG) and nerve conduction studies",
       "MRI brain and spine to rule out other causes",
       "Multidisciplinary ALS clinic referral",
       "Pulmonary function testing",
       "Genetic counseling if familial history"]
    else
      ["Specialist referral for further evaluation",
       "Additional diagnostic testing as clinically indicated",
       "Genetic counseling if hereditary condition suspected",
       "Symptomatic management and supportive care",
       "Regular monitoring and follow-up"]
  let recommendations := recommendations ++
    (if symptoms.contains "muscle weakness" then ["Creatine kinase (CK) level testing"] else [])
  let recommendations := recommendations ++
    (if symptoms.contains "seizures" then ["EEG and neurological evaluation"] else [])
  let recommendations := recommendations ++
    (if symptoms.contains "heart problems" || symptoms.contains "cardiomyopathy"
     then ["Echocardiogram and cardiology consultation"] else [])
  let recommendations := recommendations ++ labRecs lab_values
  recommendations.dedup

/-- Stable descending insertion for `sortDesc`: `x` goes before the first
element whose score it weakly exceeds, so among equal scores the earlier
element of the original list stays first. -/
def insertDesc (x : String × Rat) : List (String × Rat) → List (String × Rat)
  | [] => [x]
  | y :: ys => if y.2 ≤ x.2 then x :: y :: ys else y :: insertDesc x ys

/-- Python `sorted(disease_scores.items(), key=lambda x: x[1], reverse=True)`
(line 250): a stable sort by score, descending. -/
def sortDesc : List (String × Rat) → List (String × Rat)
  | [] => []
  | x :: xs => insertDesc x (sortDesc xs)

/-- The diagnosis result dict assembled at lines 266-278 (the two informational
constant strings `processing_time` and `accuracy_estimate` are omitted: they
carry no data). -/
structure DiagnosisResult where
  primary_diagnosis : String
  confidence : Rat
  differential_diagnoses : List (String × Rat)
  extracted_entities : List Entity
  recommendations : List String
  model_version : String
deriving DecidableEq, Repr

/-- `diagnose_rare_disease` (pretrained_medical_ai.py lines 208-282).
Returns `none` exactly where the Python code raises: with an empty catalog,
`top_predictions` is empty and the expression
`generate_recommendations(top_predictions[0][0], ...)` at line 264 raises
`IndexError` BEFORE the `if top_predictions else "Unknown"` sentinel guards of
the result dict (line 267) can apply. -/
def diagnose_rare_disease (env : Env) (catalog : List (String × List String))
    (patient_data : PatientData) : Option DiagnosisResult :=
  let symptoms := patient_data.symptoms
  let lab_values := patient_data.lab_values
  let patient_text := mkPatientText patient_data
  let entities := extract_medical_entities env catalog patient_text
  let disease_scores := calculate_disease_similarity env catalog symptoms patient_text
  let sorted_diseases := sortDesc disease_scores
  let top_predictions := sorted_diseases.take 5
  let confidence : Rat :=
    if 1 < top_predictions.length then
      let top_score := (top_predictions.headD ("", 0)).2
      let second_score := ((top_predictions.drop 1).headD ("", 0)).2
      min (95 / 100) (max (1 / 2) (top_score * (1 + (top_score - second_score))))
    else if top_predictions.isEmpty then 1 / 2
    else (top_predictions.headD ("", 0)).2
  match top_predictions.head? with
  | none => none
  | some top =>
    let recommendations := generate_recommendations top.1 symptoms lab_values
    some
      { primary_diagnosis := top.1
        confidence := confidence
        differential_diagnoses := top_predictions.take 5
        extracted_entities := entities
        recommendations := recommendations
        model_version := "pretrained_medical_v1.0" }

/-- A deterministic environment: encoder always succeeds with the constant
embedding `[1]`, similarity is constantly 0, keyword-fallback NER; used to
evaluate the engine on concrete inputs. -/
def envOne : Env := ⟨fun _ => some [1], fun _ => [], fun _ _ => 0, none⟩

/-- An environment whose encoder always raises, so every encoding falls back
to the random draw, here `[1]`; the similarity of two (1-dimensional)
embeddings is modelled by the head of the first. -/
def envRand1 : Env := ⟨fun _ => none, fun _ => [1], fun a _ => a.headD 0, none⟩

/-- The same fixed models as `envRand1` (identical `embedModel`, `simOf`,
`ner`), but this call's random fallback draws `[0]` instead of `[1]`. -/
def envRand2 : Env := ⟨fun _ => none, fun _ => [0], fun a _ => a.headD 0, none⟩

/-- For the determinism witness: encoder total, random draw `[2]` (unused). -/
def envDet1 : Env := ⟨fun _ => some [1], fun _ => [2], fun a b => a.headD 0 * b.headD 0, none⟩

/-- Same models as `envDet1`, random draw `[3]` (unused). -/
def envDet2 : Env := ⟨fun _ => some [1], fun _ => [3], fun a b => a.headD 0 * b.headD 0, none⟩

/-- A minimal patient record (every field at the source's default). -/
def patEmpty : PatientData := ⟨[], "", 0, "unknown", []⟩

/-- The number of medical-history items that trigger the history bonus of
`calculate_test_disease_probability`: items containing the underscored
substring `"family_history"` after lower-casing, for a non-"sporadic"
genetic pattern. -/
def familyHistoryHits (medical_history : List String) (genetic_pattern : String) : Nat :=
  (medical_history.filter (fun h =>
    substrB "family_history" (strLower h) && !(genetic_pattern == "sporadic"))).length

/-! ## Helper lemmas -/

theorem historyFold_eq (medical_history : List String) (genetic_pattern : String)
    (st : Rat × Rat) :
    historyFold medical_history genetic_pattern st =
      (st.1 + 2 * familyHistoryHits medical_history genetic_pattern,
       st.2 + 2 * familyHistoryHits medical_history genetic_pattern) := by
  induction medical_history generalizing st with
  | nil => simp [historyFold, familyHistoryHits]
  | cons h hs ih =>
    simp only [historyFold, familyHistoryHits, List.foldl_cons, List.filter_cons] at *
    by_cases hc : (substrB "family_history" (strLower h) && !(genetic_pattern == "sporadic")) = true
    · rw [if_pos hc]
      simp only [hc, if_true, List.length_cons]
      rw [ih]
      simp only [Prod.mk.injEq]
      constructor <;> (push_cast; ring)
    · rw [if_neg hc]
      simp only [Bool.not_eq_true] at hc
      simp only [hc, Bool.false_eq_true, if_false]
      exact ih st

theorem symptomFold_fst_nonneg (symptoms : List String) (w : Rat) (hw : 0 ≤ w)
    (syms : List String) (st : Rat × Rat) (h : 0 ≤ st.1) :
    0 ≤ (symptomFold symptoms w syms st).1 := by
  induction syms generalizing st with
  | nil => simpa [symptomFold] using h
  | cons d ds ih =>
    simp only [symptomFold, List.foldl_cons] at *
    apply ih
    dsimp only
    split
    · exact add_nonneg h hw
    · exact h

theorem length_calculate_disease_similarity (env : Env) (catalog : List (String × List String))
    (patient_symptoms : List String) (patient_text : String) :
    (calculate_disease_similarity env catalog patient_symptoms patient_text).length =
      catalog.length := by
  simp [calculate_disease_similarity]

theorem any_append_singleton_of_mem (l : List String) (x : String) (f : String → Bool)
    (hx : x ∈ l) : (l ++ [x]).any f = l.any f := by
  rw [List.any_append]
  cases hf : f x with
  | false => simp [List.any_cons, hf]
  | true =>
    have : l.any f = true := List.any_eq_true.mpr ⟨x, hx, hf⟩
    simp [this]

theorem mem_insertDesc (z x : String × Rat) (l : List (String × Rat)) :
    z ∈ insertDesc x l ↔ z = x ∨ z ∈ l := by
  induction l with
  | nil => simp [insertDesc]
  | cons y ys ih =>
    rw [insertDesc]
    by_cases hc : y.2 ≤ x.2
    · rw [if_pos hc]; simp
    · rw [if_neg hc]; simp [ih]; tauto

theorem pairwise_insertDesc (x : String × Rat) (l : List (String × Rat))
    (h : l.Pairwise (fun a b => b.2 ≤ a.2)) :
    (insertDesc x l).Pairwise (fun a b => b.2 ≤ a.2) := by
  induction l with
  | nil => simp [insertDesc]
  | cons y ys ih =>
    rw [insertDesc]
    rcases List.pairwise_cons.mp h with ⟨hy, hys⟩
    by_cases hc : y.2 ≤ x.2
    · rw [if_pos hc]
      refine List.pairwise_cons.mpr ⟨?_, h⟩
      intro z hz
      rcases List.mem_cons.mp hz with rfl | hz
      · exact hc
      · exact le_trans (hy z hz) hc
    · rw [if_neg hc]
      refine List.pairwise_cons.mpr ⟨?_, ih hys⟩
      intro z hz
      rcases (mem_insertDesc z x ys).mp hz with rfl | hz
      · exact le_of_not_le hc
      · exact hy z hz

theorem sortDesc_pairwise (l : List (String × Rat)) :
    (sortDesc l).Pairwise (fun a b => b.2 ≤ a.2) := by
  induction l with
  | nil => simp [sortDesc]
  | cons x xs ih => exact pairwise_insertDesc x (sortDesc xs) ih

theorem length_insertDesc (x : String × Rat) (l : List (String × Rat)) :
    (insertDesc x l).length = l.length + 1 := by
  induction l with
  | nil => simp [insertDesc]
  | cons y ys ih =>
    rw [insertDesc]
    by_cases hc : y.2 ≤ x.2
    · rw [if_pos hc]; simp
    · rw [if_neg hc]; simp [ih]

theorem length_sortDesc (l : List (String × Rat)) :
    (sortDesc l).length = l.length := by
  induction l with
  | nil => rfl
  | cons x xs ih => rw [sortDesc, length_insertDesc, ih, List.length_cons]

/-- The sorted-differential skeleton of `diagnose_rare_disease`: the value it
returns in each of the three shapes of the sorted score list. -/
theorem diagnose_nil (env : Env) (catalog : List (String × List String)) (p : PatientData)
    (h : sortDesc (calculate_disease_similarity env catalog p.symptoms (mkPatientText p)) = []) :
    diagnose_rare_disease env catalog p = none := by
  unfold diagnose_rare_disease
  simp only [h, List.take_nil, List.head?_nil]

theorem diagnose_single (env : Env) (catalog : List (String × List String)) (p : PatientData)
    (a : String × Rat)
    (h : sortDesc (calculate_disease_similarity env catalog p.symptoms (mkPatientText p)) = [a]) :
    diagnose_rare_disease env catalog p = some
      { primary_diagnosis := a.1
        confidence := a.2
        differential_diagnoses := [a]
        extracted_entities := extract_medical_entities env catalog (mkPatientText p)
        recommendations := generate_recommendations a.1 p.symptoms p.lab_values
        model_version := "pretrained_medical_v1.0" } := by
  unfold diagnose_rare_disease
  simp only [h]
  rfl

theorem diagnose_two (env : Env) (catalog : List (String × List String)) (p : PatientData)
    (a b : String × Rat) (t : List (String × Rat))
    (h : sortDesc (calculate_disease_similarity env catalog p.symptoms (mkPatientText p)) =
      a :: b :: t) :
    diagnose_rare_disease env catalog p = some
      { primary_diagnosis := a.1
        confidence := min (95 / 100) (max (1 / 2) (a.2 * (1 + (a.2 - b.2))))
        differential_diagnoses := (a :: b :: t).take 5
        extracted_entities := extract_medical_entities env catalog (mkPatientText p)
        recommendations := generate_recommendations a.1 p.symptoms p.lab_values
        model_version := "pretrained_medical_v1.0" } := by
  unfold diagnose_rare_disease
  simp only [h]
  have hlen : 1 < ((a :: b :: t).take 5).length := by
    simp [List.length_take]
  rw [if_pos hlen]
  simp [List.take_take]

theorem mem_generate_of_mem_labRecs (primary_diagnosis : String) (symptoms : List String)
    (lab_values : List (String × Rat)) (x : String) (hx : x ∈ labRecs lab_values) :
    x ∈ generate_recommendations primary_diagnosis symptoms lab_values := by
  unfold generate_recommendations
  rw [List.mem_dedup]
  simp only [List.mem_append]
  tauto

/-! ## Claim theorems -/

/-- Claim C1 (code bug): the spec says `diagnose` returns the sentinel result
("Unknown", 0.5, empty differential) on an empty catalog and never raises, and
the source even carries the matching guards in its result dict; but the call
`generate_recommendations(top_predictions[0][0], ...)` at line 264 indexes the
empty list first, so the Python code raises `IndexError` there (embedded as
`none`). With a nonempty catalog the function does return a result. -/
theorem diagnose_empty_catalog_raises :
    diagnose_rare_disease envOne [] patEmpty = none ∧
    ∀ (env : Env) (c : String × List String) (cs : List (String × List String)) (p : PatientData),
      (diagnose_rare_disease env (c :: cs) p).isSome = true := by
  constructor
  · exact diagnose_nil envOne [] patEmpty rfl
  · intro env c cs p
    cases hs : sortDesc (calculate_disease_similarity env (c :: cs) p.symptoms (mkPatientText p)) with
    | nil =>
      exfalso
      have hl := length_sortDesc (calculate_disease_similarity env (c :: cs) p.symptoms (mkPatientText p))
      rw [hs, length_calculate_disease_similarity] at hl
      simp at hl
    | cons a t =>
      cases t with
      | nil => rw [diagnose_single env (c :: cs) p a hs]; rfl
      | cons b t' => rw [diagnose_two env (c :: cs) p a b t' hs]; rfl

/-- Claim C2 counterexample: with the fixed models held identical
(`embedModel`, `simOf`, `ner` all equal) but a different random draw for the
encoder fallback of lines 166-169, two calls of `diagnose` on the identical
patient and catalog return different outputs — `diagnose` is not a pure
function of the patient input. -/
theorem diagnose_random_fallback_nondeterministic :
    envRand1.embedModel = envRand2.embedModel ∧
    envRand1.simOf = envRand2.simOf ∧
    envRand1.ner = envRand2.ner ∧
    diagnose_rare_disease envRand1 (disease_symptoms.take 1) patEmpty ≠
      diagnose_rare_disease envRand2 (disease_symptoms.take 1) patEmpty := by
  have e1 : sortDesc (calculate_disease_similarity envRand1 (disease_symptoms.take 1)
      patEmpty.symptoms (mkPatientText patEmpty)) = [("Huntington Disease", 7/10)] := by
    norm_num +decide [calculate_disease_similarity, encode_clinical_text, envRand1, patEmpty,
      countMatchPairs, diseaseText, disease_symptoms, List.take, List.filter_cons,
      min_def, max_def, sortDesc, insertDesc]
  have e2 : sortDesc (calculate_disease_similarity envRand2 (disease_symptoms.take 1)
      patEmpty.symptoms (mkPatientText patEmpty)) = [("Huntington Disease", 0)] := by
    norm_num +decide [calculate_disease_similarity, encode_clinical_text, envRand2, patEmpty,
      countMatchPairs, diseaseText, disease_symptoms, List.take, List.filter_cons,
      min_def, max_def, sortDesc, insertDesc]
  refine ⟨rfl, rfl, rfl, ?_⟩
  intro hEq
  rw [diagnose_single envRand1 (disease_symptoms.take 1) patEmpty ("Huntington Disease", 7/10) e1,
    diagnose_single envRand2 (disease_symptoms.take 1) patEmpty ("Huntington Disease", 0) e2] at hEq
  have hconf := congrArg DiagnosisResult.confidence (Option.some.inj hEq)
  norm_num at hconf

/-- Claim C2 (amended): for a fixed catalog and fixed loaded models, and
provided the text encoder succeeds on every input (so the random fallback of
lines 166-169 is never taken), `diagnose` is a pure function of the patient:
two calls that may differ only in the random source return identical
outputs. -/
theorem diagnose_deterministic_of_encoder_total (env1 env2 : Env)
    (catalog : List (String × List String)) (p : PatientData)
    (hem : env1.embedModel = env2.embedModel) (hsim : env1.simOf = env2.simOf)
    (hner : env1.ner = env2.ner) (htot : ∀ t, (env1.embedModel t).isSome = true) :
    diagnose_rare_disease env1 catalog p = diagnose_rare_disease env2 catalog p := by
  have henc : ∀ t, encode_clinical_text env1 t = encode_clinical_text env2 t := by
    intro t
    unfold encode_clinical_text
    rw [← hem]
    cases hv : env1.embedModel t with
    | none => have h := htot t; rw [hv] at h; simp at h
    | some v => rfl
  have hcalc : calculate_disease_similarity env1 catalog p.symptoms (mkPatientText p) =
      calculate_disease_similarity env2 catalog p.symptoms (mkPatientText p) := by
    simp only [calculate_disease_similarity]
    rw [henc]
    congr 1
    funext dk
    rw [henc, hsim]
  have hent : extract_medical_entities env1 catalog (mkPatientText p) =
      extract_medical_entities env2 catalog (mkPatientText p) := by
    unfold extract_medical_entities
    rw [hner]
  simp only [diagnose_rare_disease]
  rw [hcalc, hent]

/-- Witness for C2 at concrete inputs: two environments with the same total
encoder but different random draws give the same diagnosis. -/
theorem diagnose_deterministic_of_encoder_total_witness :
    diagnose_rare_disease envDet1 (disease_symptoms.take 1) patEmpty =
      diagnose_rare_disease envDet2 (disease_symptoms.take 1) patEmpty :=
  diagnose_deterministic_of_encoder_total envDet1 envDet2 (disease_symptoms.take 1) patEmpty
    rfl rfl rfl (fun _ => rfl)

/-- Claim C3 counterexample: with exactly one candidate disease in the
catalog, the confidence is the lone candidate score, which here is 0 — below
the claimed lower bound 0.5. -/
theorem single_candidate_confidence_below_half :
    (disease_symptoms.take 1).length = 1 ∧
    Option.map DiagnosisResult.confidence
      (diagnose_rare_disease envOne (disease_symptoms.take 1) patEmpty) = some 0 ∧
    ¬ ((1 : Rat) / 2 ≤ 0) := by
  have h : sortDesc (calculate_disease_similarity envOne (disease_symptoms.take 1)
      patEmpty.symptoms (mkPatientText patEmpty)) = [("Huntington Disease", 0)] := by
    norm_num +decide [calculate_disease_similarity, encode_clinical_text, envOne, patEmpty,
      countMatchPairs, diseaseText, disease_symptoms, List.take, List.filter_cons,
      min_def, max_def, sortDesc, insertDesc]
  refine ⟨by decide, ?_, by norm_num⟩
  rw [diagnose_single envOne (disease_symptoms.take 1) patEmpty ("Huntington Disease", 0) h]
  rfl

/-- Claim C3 (amended): with at least two candidate diseases the confidence
satisfies `0.5 <= confidence <= 0.95`; with exactly one candidate the
confidence equals that single candidate score (which is only bounded into
`[0, 1]`, not `[0.5, 0.95]`). -/
theorem confidence_bounds_amended (env : Env) (catalog : List (String × List String))
    (p : PatientData) :
    (2 ≤ catalog.length →
      ∀ r, diagnose_rare_disease env catalog p = some r →
        1 / 2 ≤ r.confidence ∧ r.confidence ≤ 95 / 100) ∧
    (catalog.length = 1 →
      ∀ r, diagnose_rare_disease env catalog p = some r →
        r.confidence =
          ((calculate_disease_similarity env catalog p.symptoms (mkPatientText p)).headD ("", 0)).2) := by
  constructor
  · intro hlen r hr
    have hlenS : 2 ≤ (sortDesc (calculate_disease_similarity env catalog p.symptoms
        (mkPatientText p))).length := by
      rw [length_sortDesc, length_calculate_disease_similarity]; exact hlen
    cases hs : sortDesc (calculate_disease_similarity env catalog p.symptoms (mkPatientText p)) with
    | nil => rw [hs] at hlenS; simp at hlenS
    | cons a t =>
      cases t with
      | nil => rw [hs] at hlenS; simp at hlenS
      | cons b t' =>
        rw [diagnose_two env catalog p a b t' hs] at hr
        have hre := Option.some.inj hr
        subst hre
        exact ⟨le_min (by norm_num) (le_max_left _ _), min_le_left _ _⟩
  · intro hlen r hr
    obtain ⟨s, hS⟩ : ∃ s, calculate_disease_similarity env catalog p.symptoms (mkPatientText p) = [s] := by
      have h1 : (calculate_disease_similarity env catalog p.symptoms (mkPatientText p)).length = 1 := by
        rw [length_calculate_disease_similarity]; exact hlen
      cases hc : calculate_disease_similarity env catalog p.symptoms (mkPatientText p) with
      | nil => rw [hc] at h1; simp at h1
      | cons a t =>
        cases t with
        | nil => exact ⟨a, rfl⟩
        | cons b u => rw [hc] at h1; simp at h1
    have hsorted : sortDesc (calculate_disease_similarity env catalog p.symptoms
        (mkPatientText p)) = [s] := by rw [hS]; simp [sortDesc, insertDesc]
    rw [diagnose_single env catalog p s hsorted] at hr
    have hre := Option.some.inj hr
    subst hre
    rw [hS]
    rfl

/-- Witness for C3 (amended) on a concrete two-disease catalog. -/
theorem confidence_bounds_amended_witness :
    ∃ r, diagnose_rare_disease envOne (disease_symptoms.take 2) patEmpty = some r ∧
      1 / 2 ≤ r.confidence ∧ r.confidence ≤ 95 / 100 := by
  have h2 : sortDesc (calculate_disease_similarity envOne (disease_symptoms.take 2)
      patEmpty.symptoms (mkPatientText patEmpty)) =
      [("Huntington Disease", 0), ("Cystic Fibrosis", 0)] := by
    norm_num +decide [calculate_disease_similarity, encode_clinical_text, envOne, patEmpty,
      countMatchPairs, diseaseText, disease_symptoms, List.take, List.filter_cons,
      min_def, max_def, sortDesc, insertDesc]
  have hd := diagnose_two envOne (disease_symptoms.take 2) patEmpty
    ("Huntington Disease", 0) ("Cystic Fibrosis", 0) [] h2
  exact ⟨_, hd,
    (confidence_bounds_amended envOne (disease_symptoms.take 2) patEmpty).1 (by decide) _ hd⟩

/-- Claim C4 counterexample: the history trigger of
`calculate_test_disease_probability` tests the underscored substring
`"family_history"`, not the claimed `"family history"`: an item containing the
space-separated phrase adds nothing (for the non-sporadic Huntington profile),
while an underscored item that does NOT contain `"family history"` adds 2.0 to
both totals. -/
theorem family_history_space_substring_no_bonus :
    substrB "family history" (strLower "Family history of neurological disease") = true ∧
    historyFold ["Family history of neurological disease"] "autosomal_dominant" (0, 0) = (0, 0) ∧
    substrB "family history" (strLower "family_history_neurological") = false ∧
    historyFold ["family_history_neurological"] "autosomal_dominant" (0, 0) = (2, 2) ∧
    calculate_test_disease_probability [] ["Family history of neurological disease"] "Huntington Disease" =
      calculate_test_disease_probability [] [] "Huntington Disease" := by
  refine ⟨by decide, ?_, by decide, ?_, ?_⟩
  · norm_num +decide [historyFold, List.foldl]
  · norm_num +decide [historyFold, List.foldl]
  · norm_num +decide [calculate_test_disease_probability, disease_knowledge, scorePair,
      symptomFold, historyFold, finalScore, List.lookup, List.foldl]

/-- Claim C4 (amended): in rule-based scoring the medical-history loop adds
exactly 2.0 to both `score` and `total_possible` for EVERY history item whose
lower-cased text contains the underscored substring `"family_history"` when
the genetic pattern is not `"sporadic"`, and nothing for any other item:
the total history contribution is 2.0 times the number of qualifying items. -/
theorem history_bonus_counts_underscored_items (medical_history : List String)
    (genetic_pattern : String) (s t : Rat) :
    historyFold medical_history genetic_pattern (s, t) =
      (s + 2 * familyHistoryHits medical_history genetic_pattern,
       t + 2 * familyHistoryHits medical_history genetic_pattern) :=
  historyFold_eq medical_history genetic_pattern (s, t)

/-- Claim C5 counterexample: in the similarity-augmented mode the symptom
matcher counts (patient, known) PAIRS with no stop at the first match, so
appending a duplicate of an already-present symptom inflates the score
(1/20 becomes 1/10 here) — the claim fails for "every scoring mode". -/
theorem similarity_mode_duplicate_inflates :
    "chorea" ∈ (["chorea"] : List String) ∧
    calculate_disease_similarity envOne (disease_symptoms.take 1) (["chorea"] ++ ["chorea"]) "" =
      [("Huntington Disease", 1/10)] ∧
    calculate_disease_similarity envOne (disease_symptoms.take 1) ["chorea"] "" =
      [("Huntington Disease", 1/20)] ∧
    calculate_disease_similarity envOne (disease_symptoms.take 1) (["chorea"] ++ ["chorea"]) "" ≠
      calculate_disease_similarity envOne (disease_symptoms.take 1) ["chorea"] "" := by
  have e1 : calculate_disease_similarity envOne (disease_symptoms.take 1) (["chorea"] ++ ["chorea"]) "" =
      [("Huntington Disease", 1/10)] := by
    norm_num +decide [calculate_disease_similarity, encode_clinical_text, envOne,
      countMatchPairs, diseaseText, disease_symptoms, List.take, List.filter_cons, min_def, max_def]
  have e2 : calculate_disease_similarity envOne (disease_symptoms.take 1) ["chorea"] "" =
      [("Huntington Disease", 1/20)] := by
    norm_num +decide [calculate_disease_similarity, encode_clinical_text, envOne,
      countMatchPairs, diseaseText, disease_symptoms, List.take, List.filter_cons, min_def, max_def]
  refine ⟨List.mem_singleton.mpr rfl, e1, e2, ?_⟩
  rw [e1, e2]
  intro h
  simp only [List.cons.injEq, Prod.mk.injEq, and_true, true_and] at h
  norm_num at h

/-- Claim C5 (amended): in the rule-scoring mode, appending a duplicate of an
already-present reported symptom never changes a disease score: each catalog
symptom is matched with a stop at the first matching patient symptom. -/
theorem rule_score_duplicate_invariant (symptoms medical_history : List String)
    (target_disease x : String) (hx : x ∈ symptoms) :
    calculate_test_disease_probability (symptoms ++ [x]) medical_history target_disease =
      calculate_test_disease_probability symptoms medical_history target_disease := by
  unfold calculate_test_disease_probability
  cases disease_knowledge.lookup target_disease with
  | none => rfl
  | some info =>
    have hfold : ∀ (w : Rat) (syms : List String) (st : Rat × Rat),
        symptomFold (symptoms ++ [x]) w syms st = symptomFold symptoms w syms st := by
      intro w syms st
      unfold symptomFold
      congr 1
      funext acc ds
      rw [any_append_singleton_of_mem symptoms x _ hx]
    simp only [scorePair, hfold]

/-- Witness for C5 (amended) on a concrete duplicated symptom. -/
theorem rule_score_duplicate_invariant_witness :
    calculate_test_disease_probability (["chorea"] ++ ["chorea"]) [] "Huntington Disease" =
      calculate_test_disease_probability ["chorea"] [] "Huntington Disease" :=
  rule_score_duplicate_invariant ["chorea"] [] "Huntington Disease" "chorea"
    (List.mem_singleton.mpr rfl)

/-- Claim C6: the rule-scoring mode always returns a score in
`[0, 0.95]`, returns exactly 0 when the possible total is 0, and every score
of the similarity-augmented mode lies in `[0, 1]`. -/
theorem score_and_similarity_bounds :
    (∀ symptoms medical_history target_disease,
        0 ≤ calculate_test_disease_probability symptoms medical_history target_disease ∧
        calculate_test_disease_probability symptoms medical_history target_disease ≤ 95 / 100) ∧
    (∀ s : Rat, finalScore s 0 = 0) ∧
    (∀ (env : Env) (catalog : List (String × List String)) (ps : List String) (pt : String)
        (ds : String × Rat), ds ∈ calculate_disease_similarity env catalog ps pt →
        0 ≤ ds.2 ∧ ds.2 ≤ 1) := by
  refine ⟨?_, ?_, ?_⟩
  · intro symptoms medical_history target_disease
    unfold calculate_test_disease_probability
    cases hlk : disease_knowledge.lookup target_disease with
    | none => norm_num
    | some info =>
      have hnn : 0 ≤ (scorePair symptoms medical_history info).1 := by
        unfold scorePair
        rw [historyFold_eq]
        have h1 : 0 ≤ (symptomFold symptoms 1 info.secondary_symptoms
            (symptomFold symptoms 3 info.key_symptoms (0, 0))).1 :=
          symptomFold_fst_nonneg _ 1 (by norm_num) _ _
            (symptomFold_fst_nonneg _ 3 (by norm_num) _ _ (by norm_num))
        exact add_nonneg h1 (by positivity)
      dsimp only
      unfold finalScore
      by_cases hpos : 0 < (scorePair symptoms medical_history info).2
      · rw [if_pos hpos]
        exact ⟨le_min (div_nonneg hnn hpos.le) (by norm_num), min_le_right _ _⟩
      · rw [if_neg hpos]
        norm_num
  · intro s
    unfold finalScore
    norm_num
  · intro env catalog ps pt ds hds
    simp only [calculate_disease_similarity, List.mem_map] at hds
    obtain ⟨dk, hdk, rfl⟩ := hds
    dsimp only
    exact ⟨le_max_left 0 _, max_le (by norm_num) (min_le_left _ _)⟩

/-- Witness for C6 at a concrete similarity-mode score. -/
theorem score_and_similarity_bounds_witness :
    0 ≤ (("Huntington Disease", (1/20 : Rat)) : String × Rat).2 ∧
    (("Huntington Disease", (1/20 : Rat)) : String × Rat).2 ≤ 1 :=
  score_and_similarity_bounds.2.2 envOne (disease_symptoms.take 1) ["chorea"] ""
    ("Huntington Disease", 1/20)
    (by norm_num +decide [calculate_disease_similarity, encode_clinical_text, envOne,
      countMatchPairs, diseaseText, disease_symptoms, List.take, List.filter_cons,
      min_def, max_def])

/-- Claim C7: when the descending-sorted candidate list has at least two
entries `a, b`, the top two scores satisfy `b.2 <= a.2` and the confidence of
`diagnose` is exactly `clamp(s0 * (1 + (s0 - s1)), 0.5, 0.95)` computed from
those two scores. -/
theorem confidence_formula_two_candidates (env : Env) (catalog : List (String × List String))
    (p : PatientData) (a b : String × Rat) (t : List (String × Rat))
    (h : sortDesc (calculate_disease_similarity env catalog p.symptoms (mkPatientText p)) =
      a :: b :: t) :
    b.2 ≤ a.2 ∧
    Option.map DiagnosisResult.confidence (diagnose_rare_disease env catalog p) =
      some (min (95 / 100) (max (1 / 2) (a.2 * (1 + (a.2 - b.2))))) := by
  constructor
  · have hp := sortDesc_pairwise (calculate_disease_similarity env catalog p.symptoms (mkPatientText p))
    rw [h] at hp
    exact (List.pairwise_cons.mp hp).1 b (List.mem_cons_self b t)
  · rw [diagnose_two env catalog p a b t h]
    rfl

/-- Witness for C7 on a concrete two-disease catalog. -/
theorem confidence_formula_two_candidates_witness :
    Option.map DiagnosisResult.confidence
      (diagnose_rare_disease envOne (disease_symptoms.take 2) patEmpty) =
      some (min (95 / 100) (max (1 / 2) ((0 : Rat) * (1 + ((0 : Rat) - (0 : Rat)))))) :=
  (confidence_formula_two_candidates envOne (disease_symptoms.take 2) patEmpty
    ("Huntington Disease", 0) ("Cystic Fibrosis", 0) []
    (by norm_num +decide [calculate_disease_similarity, encode_clinical_text, envOne, patEmpty,
      countMatchPairs, diseaseText, disease_symptoms, List.take, List.filter_cons,
      min_def, max_def, sortDesc, insertDesc])).2

/-- Claim C8: if `matches(a, b)` holds via the substring clause then
`matches(b, a)` holds as well; but `matches` as a whole is not symmetric:
"dyskinesia" matches the catalog symptom "involuntary_movements" through the
synonym table (keyed by the catalog side only) while the swapped direction
fails. -/
theorem substring_clause_symmetric_matches_asymmetric :
    (∀ a b : String, substrClause a b = true → symptom_matches_test b a = true) ∧
    (symptom_matches_test "dyskinesia" "involuntary_movements" = true ∧
     symptom_matches_test "involuntary_movements" "dyskinesia" = false) := by
  refine ⟨?_, by decide, by decide⟩
  intro a b h
  simp only [substrClause] at h
  have h2 : (substrB (cleanTest b) (cleanTest a) || substrB (cleanTest a) (cleanTest b)) = true := by
    rw [Bool.or_comm]; exact h
  simp [symptom_matches_test, h2]

/-- Witness for C8 at a concrete substring-clause pair. -/
theorem substring_clause_symmetric_matches_asymmetric_witness :
    symptom_matches_test "muscle weakness" "weakness" = true :=
  substring_clause_symmetric_matches_asymmetric.1 "weakness" "muscle weakness" (by decide)

/-- Claim C9: elevated `alt` (> 56) or `ast` (> 40) puts the hepatology
referral into the recommendations, elevated `creatinine` (> 1.2) the
nephrology referral; missing lab keys never trigger these additions; and the
concrete lab dict `{alt: 80, creatinine: 1.5}` yields both referrals for any
primary diagnosis and symptom list. -/
theorem lab_triggered_recommendations (primary_diagnosis : String) (symptoms : List String)
    (lab_values : List (String × Rat)) :
    ((getLab lab_values "alt" > 56 ∨ getLab lab_values "ast" > 40) →
      "Hepatology consultation for elevated liver enzymes" ∈
        generate_recommendations primary_diagnosis symptoms lab_values) ∧
    (getLab lab_values "creatinine" > 6 / 5 →
      "Nephrology evaluation for kidney function" ∈
        generate_recommendations primary_diagnosis symptoms lab_values) ∧
    ((lab_values.lookup "alt" = none ∧ lab_values.lookup "ast" = none) →
      "Hepatology consultation for elevated liver enzymes" ∉ labRecs lab_values) ∧
    (lab_values.lookup "creatinine" = none →
      "Nephrology evaluation for kidney function" ∉ labRecs lab_values) ∧
    ("Hepatology consultation for elevated liver enzymes" ∈
        generate_recommendations primary_diagnosis symptoms [("alt", 80), ("creatinine", 3/2)] ∧
     "Nephrology evaluation for kidney function" ∈
        generate_recommendations primary_diagnosis symptoms [("alt", 80), ("creatinine", 3/2)]) := by
  have c1 : ("creatinine" == "alt") = false := by decide
  have c2 : ("alt" == "alt") = true := by decide
  have c3 : ("creatinine" == "creatinine") = true := by decide
  have hlab0 : labRecs [("alt", 80), ("creatinine", 3/2)] =
      ["Hepatology consultation for elevated liver enzymes",
       "Nephrology evaluation for kidney function"] := by
    norm_num +decide [labRecs, getLab, List.lookup, c1, c2, c3]
  refine ⟨?_, ?_, ?_, ?_, ?_, ?_⟩
  · intro h
    apply mem_generate_of_mem_labRecs
    have hne : lab_values ≠ [] := by
      rintro rfl
      rcases h with h | h <;> simp [getLab] at h <;> norm_num at h
    unfold labRecs
    rw [if_neg hne]
    rcases h with h | h <;> simp [h]
  · intro h
    apply mem_generate_of_mem_labRecs
    have hne : lab_values ≠ [] := by
      rintro rfl
      simp [getLab] at h
      norm_num at h
    unfold labRecs
    rw [if_neg hne]
    simp [h]
  · rintro ⟨h1, h2⟩
    unfold labRecs
    by_cases hne : lab_values = []
    · rw [if_pos hne]; simp
    · rw [if_neg hne]
      have ha : getLab lab_values "alt" = 0 := by simp [getLab, h1]
      have hb : getLab lab_values "ast" = 0 := by simp [getLab, h2]
      simp only [ha, hb, List.mem_append, List.mem_singleton]
      norm_num
      exact fun _ => by decide
  · intro h1
    unfold labRecs
    by_cases hne : lab_values = []
    · rw [if_pos hne]; simp
    · rw [if_neg hne]
      have hc : getLab lab_values "creatinine" = 0 := by simp [getLab, h1]
      simp only [hc, List.mem_append, List.mem_singleton]
      norm_num
      exact fun _ => by decide
  · exact mem_generate_of_mem_labRecs primary_diagnosis symptoms _ _ (by rw [hlab0]; simp)
  · exact mem_generate_of_mem_labRecs primary_diagnosis symptoms _ _ (by rw [hlab0]; simp)

/-- Witness for C9 at the concrete scenario-4 lab values. -/
theorem lab_triggered_recommendations_witness :
    (getLab [("alt", (80 : Rat)), ("creatinine", 3/2)] "alt" > 56 ∨
     getLab [("alt", (80 : Rat)), ("creatinine", 3/2)] "ast" > 40) ∧
    "Hepatology consultation for elevated liver enzymes" ∈
      generate_recommendations "Wilson Disease" [] [("alt", 80), ("creatinine", 3/2)] ∧
    "Nephrology evaluation for kidney function" ∈
      generate_recommendations "Wilson Disease" [] [("alt", 80), ("creatinine", 3/2)] := by
  have c2 : ("alt" == "alt") = true := by decide
  have c1 : ("creatinine" == "alt") = false := by decide
  have c3 : ("creatinine" == "creatinine") = true := by decide
  have h : getLab [("alt", (80 : Rat)), ("creatinine", 3/2)] "alt" > 56 := by
    norm_num [getLab, List.lookup, c2]
  exact ⟨Or.inl h,
    (lab_triggered_recommendations "Wilson Disease" [] [("alt", 80), ("creatinine", 3/2)]).1 (Or.inl h),
    (lab_triggered_recommendations "Wilson Disease" [] [("alt", 80), ("creatinine", 3/2)]).2.1
      (by norm_num [getLab, List.lookup, c1, c3])⟩

/-- Claim C10: the synonym lookup in `symptom_matches_test` is keyed by the
raw catalog symptom string: "dyskinesia" matches the underscored catalog form
"involuntary_movements" via the synonym table, but not its normalized
space-separated form "involuntary movements", even though normalization maps
the former to the latter. -/
theorem synonym_lookup_raw_key_not_normalization_invariant :
    cleanTest "involuntary_movements" = "involuntary movements" ∧
    symptom_matches_test "dyskinesia" "involuntary_movements" = true ∧
    symptom_matches_test "dyskinesia" "involuntary movements" = false :=
  ⟨by decide, by decide, by decide⟩

end MedAI
